import Mathlib

/-!
# Verification of the Bay Area surf-conditions engine

A shallow embedding, in Lean 4, of the scoring and time-window engine of the
bay-area-surf-app repository (`src/lib/sun.ts`, `src/lib/utils.ts`,
`src/lib/spots.ts`, `src/lib/api/tides.ts`), together with proofs and
refutations of the specification's testable properties.

Modelling conventions:
* JavaScript numbers are modelled as `ℚ` (the engine only performs field
  arithmetic, comparisons and rounding on them; `Math.tanh`, the one
  transcendental it uses, is modelled as an explicit function parameter).
* `Math.round` is JS rounding (half towards +∞): `jsRound x = ⌊x + 1/2⌋`.
* `Date` values are modelled as integer timestamps (minutes, or abstract
  ticks); functions that read the wall clock (`new Date()`) take the current
  time as an explicit argument.
* Locale-dependent message strings (`toLocaleTimeString` output) are elided
  from the embedded return records; every field the stated properties speak
  about (statuses, scores, hours, heights, `leaveBy`, window strings) is kept.
-/

/-- JavaScript `Math.round`: rounds half-way cases towards positive infinity,
`Math.round x = ⌊x + 0.5⌋`.  Returned as a rational (with integer value)
since the engine keeps computing with the result. -/
def jsRound (x : ℚ) : ℚ := (⌊x + 1/2⌋ : ℤ)

/-! ## `src/lib/utils.ts` — `normalizeAngle`

```ts
export function normalizeAngle(angle: number): number {
  let normalized = angle
  while (normalized < -180) normalized += 360
  while (normalized > 180) normalized -= 360
  return normalized
}
```
The two `while` loops are embedded as two terminating recursions, run in the
source's order. -/

/-- First loop of `normalizeAngle`: `while (normalized < -180) normalized += 360`. -/
def normUp (x : ℚ) : ℚ :=
  if h : x < -180 then normUp (x + 360) else x
termination_by (⌈(-180 - x) / 360⌉).toNat
decreasing_by
  have h1 : (0:ℚ) < -180 - x := by linarith
  have hceil : ⌈(-180 - (x + 360)) / 360⌉ = ⌈(-180 - x) / 360⌉ - 1 := by
    have : (-180 - (x + 360)) / 360 = (-180 - x) / 360 - 1 := by ring
    rw [this, Int.ceil_sub_one]
  have hpos : 0 < ⌈(-180 - x) / 360⌉ := Int.ceil_pos.mpr (div_pos h1 (by norm_num))
  omega

/-- Second loop of `normalizeAngle`: `while (normalized > 180) normalized -= 360`. -/
def normDown (x : ℚ) : ℚ :=
  if h : 180 < x then normDown (x - 360) else x
termination_by (⌈(x - 180) / 360⌉).toNat
decreasing_by
  have h1 : (0:ℚ) < x - 180 := by linarith
  have hceil : ⌈(x - 360 - 180) / 360⌉ = ⌈(x - 180) / 360⌉ - 1 := by
    have : (x - 360 - 180) / 360 = (x - 180) / 360 - 1 := by ring
    rw [this, Int.ceil_sub_one]
  have hpos : 0 < ⌈(x - 180) / 360⌉ := Int.ceil_pos.mpr (div_pos h1 (by norm_num))
  omega

/-- `normalizeAngle` from `src/lib/utils.ts`: the two `while` loops in order. -/
def normalizeAngle (angle : ℚ) : ℚ := normDown (normUp angle)

/-! ## `src/lib/sun.ts` — condition scorers and spot score -/

/-- One cell of `SKILL_CONFIGS` (`{ minIdeal, maxIdeal, minSurfable, maxSurfable }`). -/
structure SkillConfig where
  minIdeal : ℚ
  maxIdeal : ℚ
  minSurfable : ℚ
  maxSurfable : ℚ
deriving DecidableEq

/-- The `SKILL_CONFIGS` table of `src/lib/sun.ts`: a two-level record keyed by
surfer type and skill level, modelled as a nested string lookup returning
`none` exactly where the TS optional chaining yields `undefined`. -/
def SKILL_CONFIGS (surferType skillLevel : String) : Option SkillConfig :=
  if surferType = "longboard" then
    if skillLevel = "beginner" then some ⟨1.5, 3, 1, 5⟩
    else if skillLevel = "advanced" then some ⟨2, 5, 1.5, 7⟩
    else if skillLevel = "expert" then some ⟨3, 6, 2, 10⟩
    else none
  else if surferType = "mediumboard" then
    if skillLevel = "beginner" then some ⟨2, 4, 1.5, 6⟩
    else if skillLevel = "advanced" then some ⟨3, 6, 2, 8⟩
    else if skillLevel = "expert" then some ⟨4, 8, 2.5, 12⟩
    else none
  else if surferType = "shortboard" then
    if skillLevel = "beginner" then some ⟨2.5, 4, 2, 6⟩
    else if skillLevel = "advanced" then some ⟨3, 7, 2.5, 10⟩
    else if skillLevel = "expert" then some ⟨4, 10, 3, 15⟩
    else none
  else none

/-- Body of `scoreWaveHeight` after a successful config lookup (the source
function from the first `if` on, with `config` in scope). -/
def scoreWaveHeightCfg (config : SkillConfig) (height : ℚ) : ℚ :=
  if config.minIdeal ≤ height ∧ height ≤ config.maxIdeal then 100
  else if config.minSurfable ≤ height ∧ height < config.minIdeal then
    jsRound (100 - (config.minIdeal - height) / (config.minIdeal - config.minSurfable) * 40)
  else if config.maxIdeal < height ∧ height ≤ config.maxSurfable then
    jsRound (100 - (height - config.maxIdeal) / (config.maxSurfable - config.maxIdeal) * 50)
  else if height < config.minSurfable then
    max 0 (jsRound (height / config.minSurfable * 30))
  else if config.maxSurfable < height then
    max 0 (jsRound (30 - (height - config.maxSurfable) * 10))
  else 0

/-- `scoreWaveHeight(height, surferType, skillLevel)` from `src/lib/sun.ts`:
returns the neutral default 50 when the `SKILL_CONFIGS` lookup misses. -/
def scoreWaveHeight (height : ℚ) (surferType skillLevel : String) : ℚ :=
  match SKILL_CONFIGS surferType skillLevel with
  | none => 50
  | some config => scoreWaveHeightCfg config height

/-- `scoreWavePeriod` from `src/lib/sun.ts`: a six-bucket step function. -/
def scoreWavePeriod (period : ℚ) : ℚ :=
  if 15 ≤ period then 100
  else if 13 ≤ period then 90
  else if 11 ≤ period then 75
  else if 9 ≤ period then 55
  else if 7 ≤ period then 35
  else 20

/-- The `speedScore` local of `scoreWind` (named here for proof reuse). -/
def windSpeedScore (speed : ℚ) : ℚ :=
  if speed < 5 then 100
  else if speed < 10 then 85
  else if speed < 15 then 65
  else if speed < 20 then 40
  else if speed < 25 then 20
  else 5

/-- The `directionMultiplier` bucket table of `scoreWind`, as a function of the
absolute circular difference (named here for proof reuse). -/
def windDirectionMultiplier (angleDiff : ℚ) : ℚ :=
  if angleDiff ≤ 45 then 1
  else if angleDiff ≤ 90 then 0.85
  else if angleDiff ≤ 135 then 0.6
  else 0.4

/-- `scoreWind(speed, direction, spotOffshoreDirection)` from `src/lib/sun.ts`:
speed-bucket score times a direction multiplier, the multiplier floored at 0.9
in glassy (<5 mph) conditions, rounded at the end. -/
def scoreWind (speed direction spotOffshoreDirection : ℚ) : ℚ :=
  let speedScore := windSpeedScore speed
  let angleDiff := |normalizeAngle (direction - spotOffshoreDirection)|
  let directionMultiplier :=
    if speed < 5 then max 0.9 (windDirectionMultiplier angleDiff)
    else windDirectionMultiplier angleDiff
  jsRound (speedScore * directionMultiplier)

/-- `scoreSwellDirection` from `src/lib/sun.ts`: minimum circular distance to
any optimal bearing (loop starting from 180), then six buckets. -/
def scoreSwellDirection (swellDirection : ℚ) (spotOptimalDirections : List ℚ) : ℚ :=
  let minDiff := spotOptimalDirections.foldl
    (fun acc optimal => min acc |normalizeAngle (swellDirection - optimal)|) 180
  if minDiff ≤ 15 then 100
  else if minDiff ≤ 30 then 85
  else if minDiff ≤ 45 then 70
  else if minDiff ≤ 60 then 50
  else if minDiff ≤ 90 then 30
  else 10

/-- The tide phase enum of the data model. -/
inductive TidePhase
  | rising
  | falling
  | high
  | low
deriving DecidableEq

/-- A spot's preferred tide class. -/
inductive BestTide
  | low
  | mid
  | high
  | any
deriving DecidableEq

/-- `scoreTide(currentTideHeight, tidePhase, spotBestTide)` from
`src/lib/sun.ts`; the phase argument is unused by the source as well. -/
def scoreTide (currentTideHeight : ℚ) (_tidePhase : TidePhase) (spotBestTide : BestTide) : ℚ :=
  if spotBestTide = BestTide.any then 80
  else
    let tidePct := min 1 (max 0 (currentTideHeight / 6))
    match spotBestTide with
    | BestTide.low =>
      if tidePct < 0.33 then 100
      else if tidePct < 0.5 then 75
      else if tidePct < 0.67 then 50
      else 30
    | BestTide.mid =>
      if 0.33 ≤ tidePct ∧ tidePct ≤ 0.67 then 100
      else if 0.2 ≤ tidePct ∧ tidePct ≤ 0.8 then 75
      else 50
    | BestTide.high =>
      if 0.67 < tidePct then 100
      else if 0.5 < tidePct then 75
      else if 0.33 < tidePct then 50
      else 30
    | BestTide.any => 80

/-- The fields of a `SurfConditions` measurement used by the scorer. -/
structure SurfConditions where
  waveHeight : ℚ
  wavePeriod : ℚ
  windSpeed : ℚ
  windDirection : ℚ
  swellDirection : ℚ
  tideHeight : ℚ
  tidePhase : TidePhase
deriving DecidableEq

/-- The fields of a `SpotConfig` used by the scorer. -/
structure SpotConfig where
  offshoreWindDirection : ℚ
  optimalSwellDirections : List ℚ
  bestTide : BestTide
deriving DecidableEq

/-- The surfer preference pair passed to `calculateSpotScore`. -/
structure SurferPrefs where
  surferType : String
  skillLevel : String
deriving DecidableEq

/-- The four-level rating enum. -/
inductive Rating
  | poor
  | fair
  | good
  | excellent
deriving DecidableEq

/-- `ScoreResult` (the `breakdown` presentation text is elided; it is built by
`generateBreakdownText` from the same sub-scores and measurement values and no
claim refers to it). -/
structure ScoreResult where
  score : ℚ
  rating : Rating
deriving DecidableEq

/-- `calculateSpotScore(conditions, spot, prefs)` from `src/lib/sun.ts`:
weighted average of the five sub-scores (wind entering twice), rounded,
clamped to `[0, 100]`, then rated. -/
def calculateSpotScore (conditions : SurfConditions) (spot : SpotConfig)
    (prefs : SurferPrefs) : ScoreResult :=
  let waveHeightScore := scoreWaveHeight conditions.waveHeight prefs.surferType prefs.skillLevel
  let wavePeriodScore := scoreWavePeriod conditions.wavePeriod
  let windScore := scoreWind conditions.windSpeed conditions.windDirection spot.offshoreWindDirection
  let swellScore := scoreSwellDirection conditions.swellDirection spot.optimalSwellDirections
  let tideScore := scoreTide conditions.tideHeight conditions.tidePhase spot.bestTide
  let score := jsRound (waveHeightScore * 0.3 + wavePeriodScore * 0.2 + windScore * 0.2 +
    swellScore * 0.15 + windScore * 0.1 + tideScore * 0.05)
  let clampedScore := min 100 (max 0 score)
  let rating : Rating :=
    if 80 ≤ clampedScore then Rating.excellent
    else if 60 ≤ clampedScore then Rating.good
    else if 40 ≤ clampedScore then Rating.fair
    else Rating.poor
  ⟨clampedScore, rating⟩

/-- The overall-score formula exactly as the specification words it:
`round(0.30*waveHeightScore + 0.20*wavePeriodScore + 0.20*windScore +
0.15*swellScore + 0.10*windScore + 0.05*tideScore)` clamped to `[0,100]`.
Written from the spec, to be compared with `calculateSpotScore`. -/
def specSpotScore (conditions : SurfConditions) (spot : SpotConfig)
    (prefs : SurferPrefs) : ℚ :=
  min 100 (max 0 (jsRound (
    0.30 * scoreWaveHeight conditions.waveHeight prefs.surferType prefs.skillLevel +
    0.20 * scoreWavePeriod conditions.wavePeriod +
    0.20 * scoreWind conditions.windSpeed conditions.windDirection spot.offshoreWindDirection +
    0.15 * scoreSwellDirection conditions.swellDirection spot.optimalSwellDirections +
    0.10 * scoreWind conditions.windSpeed conditions.windDirection spot.offshoreWindDirection +
    0.05 * scoreTide conditions.tideHeight conditions.tidePhase spot.bestTide)))

/-- The rating thresholds exactly as the specification words them:
`≥80 Excellent, ≥60 Good, ≥40 Fair, else Poor` on the clamped score.
Written from the spec, to be compared with `calculateSpotScore`. -/
def specRating (clampedScore : ℚ) : Rating :=
  if 80 ≤ clampedScore then Rating.excellent
  else if 60 ≤ clampedScore then Rating.good
  else if 40 ≤ clampedScore then Rating.fair
  else Rating.poor

/-! ## `src/lib/api/tides.ts` — `getCurrentTideHeight`

An hourly sample's `time` string parses to a `Date`; we model the parsed
timestamp directly as an integer tick count. -/

/-- One hourly tide prediction as consumed by `getCurrentTideHeight`. -/
structure TideSample where
  time : ℤ
  height : ℚ
deriving DecidableEq

/-- The bracketing loop of `getCurrentTideHeight`: walks consecutive pairs and
returns the linear interpolation for the first pair with
`current <= now < next`, if any. -/
def bracketInterp : List TideSample → ℤ → Option ℚ
  | a :: b :: rest, now =>
    if a.time ≤ now ∧ now < b.time then
      some (a.height + ((now - a.time : ℤ) : ℚ) / ((b.time - a.time : ℤ) : ℚ) *
        (b.height - a.height))
    else bracketInterp (b :: rest) now
  | _, _ => none

/-- `getCurrentTideHeight` from `src/lib/api/tides.ts` with the wall-clock
`now` made explicit: linear interpolation between the bracketing pair, with
the source's fallback `hourly.length > 0 ? hourly[0].height : 0`. -/
def getCurrentTideHeight (hourly : List TideSample) (now : ℤ) : ℚ :=
  match bracketInterp hourly now with
  | some h => h
  | none =>
    match hourly with
    | [] => 0
    | a :: _ => a.height

/-! ## `src/lib/sun.ts` — `calculateBestTimeWindow`

The source parses each prediction's `time` into a `Date`, drops entries not on
today's calendar date, and reads the local hour-of-day.  We model the parsed
timestamp by its calendar-day offset from today (`day = 0` means today) plus
its hour-of-day. -/

/-- One hourly tide prediction as consumed by `calculateBestTimeWindow`. -/
structure TidePred where
  day : ℤ
  hour : ℕ
  height : ℚ
deriving DecidableEq

/-- `TideData` (the `highLow` series is not consumed by the functions under
verification, only `hourly`). -/
structure TideData where
  hourly : List TidePred
deriving DecidableEq

/-- One entry of the `hourlyScores` array built by `calculateBestTimeWindow`. -/
structure HourScore where
  hour : ℕ
  score : ℚ
  tideHeight : ℚ
deriving DecidableEq

/-- The `bestWindow` accumulator record of `calculateBestTimeWindow`. -/
structure BestWindow where
  startHour : ℕ
  endHour : ℕ
  avgScore : ℚ
  avgTide : ℚ
deriving DecidableEq

/-- `scoreTideForWindow` from `src/lib/sun.ts`. -/
def scoreTideForWindow (height : ℚ) (bestTide : BestTide) : ℚ :=
  if bestTide = BestTide.any then 70
  else
    let tidePct := min 1 (max 0 ((height + 1) / 7))
    match bestTide with
    | BestTide.low =>
      if tidePct < 0.3 then 100
      else if tidePct < 0.45 then 80
      else if tidePct < 0.6 then 50
      else 20
    | BestTide.mid =>
      if 0.35 ≤ tidePct ∧ tidePct ≤ 0.65 then 100
      else if 0.25 ≤ tidePct ∧ tidePct ≤ 0.75 then 80
      else 50
    | BestTide.high =>
      if 0.7 < tidePct then 100
      else if 0.55 < tidePct then 80
      else if 0.4 < tidePct then 50
      else 20
    | BestTide.any => 70

/-- The fixed diurnal wind-quality curve of `calculateBestTimeWindow`. -/
def windowWindScore (hour : ℕ) : ℚ :=
  if 5 ≤ hour ∧ hour < 9 then 50
  else if 9 ≤ hour ∧ hour < 11 then 35
  else if 11 ≤ hour ∧ hour < 15 then 10
  else if 15 ≤ hour ∧ hour < 17 then 20
  else if 17 ≤ hour ∧ hour < 19 then 40
  else 25

/-- The `hourlyScores` array of `calculateBestTimeWindow`: keep predictions on
today's date with hour in `[5, 20]`, scoring each as
`tideScore * 0.5 + windScore`. -/
def hourlyScoresOf (preds : List TidePred) (spotBestTide : BestTide) : List HourScore :=
  preds.filterMap fun p =>
    if p.day = 0 then
      if p.hour < 5 ∨ 20 < p.hour then none
      else some ⟨p.hour, scoreTideForWindow p.height spotBestTide * 0.5 + windowWindScore p.hour,
        p.height⟩
    else none

/-- All length-`size` contiguous slices of `l`, in order of start index
(`for (let i = 0; i <= hourlyScores.length - windowSize; i++)`). -/
def slidingWindows (l : List HourScore) (size : ℕ) : List (List HourScore) :=
  if size ≤ l.length then
    (List.range (l.length - size + 1)).map fun i => (l.drop i).take size
  else []

/-- The body of the inner loop of `calculateBestTimeWindow`: replace the
accumulator when the candidate window's mean score is strictly higher. -/
def windowStep (bw : BestWindow) (w : List HourScore) : BestWindow :=
  let avgScore := (w.map HourScore.score).sum / (w.length : ℚ)
  let avgTide := (w.map HourScore.tideHeight).sum / (w.length : ℚ)
  if bw.avgScore < avgScore then
    { startHour := (w.head?.getD ⟨0, 0, 0⟩).hour,
      endHour := (w.getLast?.getD ⟨0, 0, 0⟩).hour + 1,
      avgScore := avgScore,
      avgTide := avgTide }
  else bw

/-- The window-search core of `calculateBestTimeWindow`: the two nested loops
(window size 3 then 2) folded over the accumulator initialised to
`{ startHour: 6, endHour: 9, avgScore: 0, avgTide: 0 }`, returning `none` on
the source's two early-null paths. -/
def bestWindowCore (preds : List TidePred) (spotBestTide : BestTide) : Option BestWindow :=
  if preds.isEmpty then none
  else
    let hourlyScores := hourlyScoresOf preds spotBestTide
    if hourlyScores.isEmpty then none
    else some ((slidingWindows hourlyScores 3 ++ slidingWindows hourlyScores 2).foldl
      windowStep ⟨6, 9, 0, 0⟩)

/-- `getTideDescription` from `src/lib/sun.ts`. -/
def getTideDescription (height : ℚ) : String :=
  if height < 1 then "Low tide"
  else if height < 2.5 then "Low-mid tide"
  else if height < 4 then "Mid tide"
  else if height < 5 then "Mid-high tide"
  else "High tide"

/-- `formatHour` from `src/lib/sun.ts`. -/
def formatHour (hour : ℕ) : String :=
  if hour = 0 ∨ hour = 24 then "12:00 AM"
  else if hour = 12 then "12:00 PM"
  else if hour < 12 then toString hour ++ ":00 AM"
  else toString (hour - 12) ++ ":00 PM"

/-- The non-null return record of `calculateBestTimeWindow`
(`{ start, end, reason }`; the source's `end` field is called `stop` here
because `end` is a Lean keyword). -/
structure TimeWindow where
  start : String
  stop : String
  reason : String
deriving DecidableEq

/-- The reason-string selection of `calculateBestTimeWindow`. -/
def bestWindowReason (bw : BestWindow) : String :=
  let tideDesc := getTideDescription bw.avgTide
  if 5 ≤ bw.startHour ∧ bw.startHour < 9 then tideDesc ++ " + light morning winds"
  else if 17 ≤ bw.startHour then tideDesc ++ " + evening glass-off"
  else tideDesc ++ " conditions"

/-- `calculateBestTimeWindow(tideData, spotBestTide)` from `src/lib/sun.ts`. -/
def calculateBestTimeWindow (tideData : TideData) (spotBestTide : BestTide) :
    Option TimeWindow :=
  match bestWindowCore tideData.hourly spotBestTide with
  | none => none
  | some bw => some ⟨formatHour bw.startHour, formatHour bw.endHour, bestWindowReason bw⟩

/-! ## `src/lib/sun.ts` — dawn patrol

Times are modelled in minutes. `30 * 60 * 1000` ms is 30 minutes. -/

/-- `SunTimes` (timestamps in minutes). -/
structure SunTimes where
  sunrise : ℤ
  sunset : ℤ
  firstLight : ℤ
  lastLight : ℤ
deriving DecidableEq

/-- The five dawn-patrol statuses. -/
inductive DPStatus
  | tooEarly
  | leaveNow
  | onTheWay
  | surfing
  | missed
deriving DecidableEq

/-- The return record of `getDawnPatrolStatus` (`message`, a locale-formatted
presentation string, is elided; `status` and the optional `leaveBy` are kept). -/
structure DawnPatrol where
  status : DPStatus
  leaveBy : Option ℤ
deriving DecidableEq

/-- `calculateLeaveBy(targetTime, driveMinutes, bufferMinutes)` from
`src/lib/sun.ts` (the source defaults `bufferMinutes` to 10; callers here pass
it explicitly). -/
def calculateLeaveBy (targetTime driveMinutes bufferMinutes : ℤ) : ℤ :=
  targetTime - driveMinutes - bufferMinutes

/-- The `!driveMinutes` branch of `getDawnPatrolStatus` (no drive estimate, or
a falsy one): never produces `leave-now`, `on-the-way` or `missed`. -/
def dawnPatrolNoDrive (sunTimes : SunTimes) (now : ℤ) : DawnPatrol :=
  if now < sunTimes.firstLight then ⟨DPStatus.tooEarly, none⟩
  else if now < sunTimes.sunrise then ⟨DPStatus.surfing, none⟩
  else ⟨DPStatus.surfing, none⟩

/-- The drive-estimate branch of `getDawnPatrolStatus`: `leaveBy` is first
light minus drive minus 10-minute buffer, `arriveBy` adds them back. -/
def dawnPatrolDrive (sunTimes : SunTimes) (driveMinutes : ℤ) (now : ℤ) : DawnPatrol :=
  let leaveBy := calculateLeaveBy sunTimes.firstLight driveMinutes 10
  let arriveBy := leaveBy + driveMinutes + 10
  if now < leaveBy - 30 then ⟨DPStatus.tooEarly, some leaveBy⟩
  else if now < leaveBy then ⟨DPStatus.leaveNow, some leaveBy⟩
  else if now < arriveBy then ⟨DPStatus.onTheWay, some leaveBy⟩
  else if now < sunTimes.sunset then ⟨DPStatus.surfing, none⟩
  else ⟨DPStatus.missed, none⟩

/-- `getDawnPatrolStatus(sunTimes, driveMinutes?)` from `src/lib/sun.ts` with
the wall clock explicit.  The source tests `if (!driveMinutes)`, i.e. the
*truthiness* of the optional argument: an absent argument and an argument of
exactly 0 both take the no-drive branch. -/
def getDawnPatrolStatus (sunTimes : SunTimes) (driveMinutes : Option ℤ) (now : ℤ) :
    DawnPatrol :=
  match driveMinutes with
  | none => dawnPatrolNoDrive sunTimes now
  | some m => if m = 0 then dawnPatrolNoDrive sunTimes now else dawnPatrolDrive sunTimes m now

/-! ## `src/lib/spots.ts` — historical percentile -/

/-- One row of `HISTORICAL_AVERAGES`. -/
structure MonthlyAverage where
  avgScore : ℚ
  avgWaveHeight : ℚ
  goodDaysPct : ℚ
deriving DecidableEq

/-- The fixed 12-entry `HISTORICAL_AVERAGES` table of `src/lib/spots.ts`,
indexed by 0-based month. -/
def HISTORICAL_AVERAGES : Fin 12 → MonthlyAverage :=
  ![⟨68, 6.5, 45⟩, ⟨65, 5.8, 40⟩, ⟨58, 4.5, 35⟩, ⟨52, 3.5, 30⟩,
    ⟨48, 3.0, 25⟩, ⟨45, 2.5, 20⟩, ⟨42, 2.2, 18⟩, ⟨44, 2.5, 20⟩,
    ⟨55, 3.5, 35⟩, ⟨65, 5.0, 45⟩, ⟨70, 6.0, 50⟩, ⟨72, 7.0, 52⟩]

/-- `getHistoricalPercentile(score)` from `src/lib/spots.ts` with the wall
clock's month made explicit and `Math.tanh` (a float transcendental) modelled
as an opaque function parameter `th`; every stated property holds for every
interpretation of `th`. -/
def getHistoricalPercentile (th : ℚ → ℚ) (score : ℚ) (month : Fin 12) : ℚ :=
  let monthData := HISTORICAL_AVERAGES month
  let stdDev : ℚ := 15
  let zScore := (score - monthData.avgScore) / stdDev
  let percentile := jsRound (50 * (1 + th (zScore * 0.8)))
  max 1 (min 99 percentile)

/-- The percentile formula exactly as the claim words it:
`round(50 * (1 + tanh(0.8 * z)))` with `z = (score - monthAvg) / 15`, clamped
to `[1, 99]`.  Written from the spec, to be compared with
`getHistoricalPercentile`. -/
def specHistoricalPercentile (th : ℚ → ℚ) (score monthAvg : ℚ) : ℚ :=
  max 1 (min 99 (jsRound (50 * (1 + th (0.8 * ((score - monthAvg) / 15))))))

/-!
# Theorems
-/

/-! ## Rounding lemmas -/

theorem jsRound_mono {x y : ℚ} (h : x ≤ y) : jsRound x ≤ jsRound y := by
  unfold jsRound
  exact_mod_cast Int.floor_le_floor (by linarith)

theorem jsRound_intCast (m : ℤ) : jsRound (m : ℚ) = (m : ℚ) := by
  unfold jsRound
  norm_num

theorem le_jsRound_of_le {m : ℤ} {x : ℚ} (h : (m : ℚ) ≤ x) : (m : ℚ) ≤ jsRound x := by
  calc (m : ℚ) = jsRound (m : ℚ) := (jsRound_intCast m).symm
    _ ≤ jsRound x := jsRound_mono h

theorem jsRound_le_of_le {m : ℤ} {x : ℚ} (h : x ≤ (m : ℚ)) : jsRound x ≤ (m : ℚ) := by
  calc jsRound x ≤ jsRound (m : ℚ) := jsRound_mono h
    _ = (m : ℚ) := jsRound_intCast m

theorem jsRound_lt_of_lt {m : ℤ} {x : ℚ} (h : x < (m : ℚ) - 1/2) : jsRound x < (m : ℚ) := by
  unfold jsRound
  have : ⌊x + 1/2⌋ < m := Int.floor_lt.mpr (by linarith)
  exact_mod_cast this

/-! ## `normalizeAngle` lemmas -/

theorem normUp_of_not_lt {x : ℚ} (h : ¬ x < -180) : normUp x = x := by
  rw [normUp, dif_neg h]

theorem normDown_of_not_lt {x : ℚ} (h : ¬ 180 < x) : normDown x = x := by
  rw [normDown, dif_neg h]

theorem normUp_ge (x : ℚ) : -180 ≤ normUp x := by
  induction x using normUp.induct with
  | case1 x h ih => rw [normUp, dif_pos h]; exact ih
  | case2 x h => rw [normUp, dif_neg h]; linarith

theorem normDown_le (x : ℚ) : normDown x ≤ 180 := by
  induction x using normDown.induct with
  | case1 x h ih => rw [normDown, dif_pos h]; exact ih
  | case2 x h => rw [normDown, dif_neg h]; linarith

/-- If the first loop runs at least once, it lands strictly below 180. -/
theorem normUp_lt_of_lt {x : ℚ} (h : x < -180) : normUp x < 180 := by
  induction x using normUp.induct with
  | case1 x h' ih =>
    rw [normUp, dif_pos h']
    by_cases h2 : x + 360 < -180
    · exact ih h2
    · rw [normUp_of_not_lt h2]; linarith
  | case2 x h' => exact absurd h h'

/-- If the second loop runs at least once, it lands strictly above -180. -/
theorem normDown_gt_of_gt {x : ℚ} (h : 180 < x) : -180 < normDown x := by
  induction x using normDown.induct with
  | case1 x h' ih =>
    rw [normDown, dif_pos h']
    by_cases h2 : 180 < x - 360
    · exact ih h2
    · rw [normDown_of_not_lt h2]; linarith
  | case2 x h' => exact absurd h h'

/-- The result of `normalizeAngle` always lies in the closed interval `[-180, 180]`. -/
theorem normalizeAngle_mem (x : ℚ) : -180 ≤ normalizeAngle x ∧ normalizeAngle x ≤ 180 := by
  unfold normalizeAngle
  constructor
  · by_cases h : 180 < normUp x
    · exact le_of_lt (normDown_gt_of_gt h)
    · rw [normDown_of_not_lt h]; exact normUp_ge x
  · exact normDown_le _

/-- On inputs already in `[-180, 180]` the function is the identity. -/
theorem normalizeAngle_of_mem {x : ℚ} (h1 : -180 ≤ x) (h2 : x ≤ 180) :
    normalizeAngle x = x := by
  unfold normalizeAngle
  rw [normUp_of_not_lt (by linarith), normDown_of_not_lt (by linarith)]

/-- `normalizeAngle` is idempotent. -/
theorem normalizeAngle_idem (x : ℚ) :
    normalizeAngle (normalizeAngle x) = normalizeAngle x := by
  obtain ⟨h1, h2⟩ := normalizeAngle_mem x
  exact normalizeAngle_of_mem h1 h2

/-- `normalizeAngle` is 360-periodic away from the single bad point `-180`. -/
theorem normalizeAngle_add_360 {x : ℚ} (hx : x ≠ -180) :
    normalizeAngle (x + 360) = normalizeAngle x := by
  rcases lt_trichotomy x (-180) with h | h | h
  · -- the first loop would run on `x`: unfolding it once is exactly adding 360
    unfold normalizeAngle
    conv_rhs => rw [normUp, dif_pos h]
  · exact absurd h hx
  · rcases le_or_lt x 180 with h2 | h2
    · rw [normalizeAngle_of_mem (le_of_lt h) h2]
      unfold normalizeAngle
      rw [normUp_of_not_lt (by linarith), normDown, dif_pos (by linarith)]
      simpa using normDown_of_not_lt (by linarith)
    · unfold normalizeAngle
      rw [normUp_of_not_lt (by linarith), normUp_of_not_lt (by linarith)]
      conv_lhs => rw [normDown, dif_pos (by linarith)]
      norm_num

/-! ## Claim C3 -/

/-- C3, counterexample at `x = -180`: the claim as stated is false.
`normalizeAngle (-180) = -180`, which is not in the half-open range
`(-180, 180]`, and `normalizeAngle (-180 + 360) = 180 ≠ -180`, so
360-periodicity also fails at this input. -/
theorem claim_C3_counterexample :
    normalizeAngle (-180) = -180 ∧
    ¬ (-180 < normalizeAngle (-180)) ∧
    normalizeAngle ((-180) + 360) ≠ normalizeAngle (-180) := by
  have h1 : normalizeAngle (-180 : ℚ) = -180 :=
    normalizeAngle_of_mem (by norm_num) (by norm_num)
  have he : ((-180 : ℚ)) + 360 = 180 := by norm_num
  have h2 : normalizeAngle ((-180 : ℚ) + 360) = 180 := by
    rw [he]; exact normalizeAngle_of_mem (by norm_num) (by norm_num)
  refine ⟨h1, by rw [h1]; norm_num, ?_⟩
  rw [h1, h2]; norm_num

/-- C3 (amended): the angle normalization primitive always returns a value in
the **closed** range `[-180, 180]`, is idempotent, and satisfies
`normalizeAngle (x + 360) = normalizeAngle x` for every `x ≠ -180` (at
`x = -180` periodicity fails: `-180 ↦ -180` but `180 ↦ 180`). -/
theorem claim_C3_amended (x : ℚ) :
    (-180 ≤ normalizeAngle x ∧ normalizeAngle x ≤ 180) ∧
    normalizeAngle (normalizeAngle x) = normalizeAngle x ∧
    (x ≠ -180 → normalizeAngle (x + 360) = normalizeAngle x) :=
  ⟨normalizeAngle_mem x, normalizeAngle_idem x, fun hx => normalizeAngle_add_360 hx⟩

/-- Witness for C3 (amended) at the concrete angle `x = 30`. -/
theorem claim_C3_amended_witness :
    normalizeAngle (30 + 360) = normalizeAngle 30 ∧ -180 ≤ normalizeAngle 30 :=
  ⟨(claim_C3_amended 30).2.2 (by norm_num), (claim_C3_amended 30).1.1⟩

/-! ## Claims C4 and C5: `getCurrentTideHeight` endpoint behaviour

The bracketing loop requires `current <= now < next`, so neither a query after
the last sample nor a query exactly at the last sample's timestamp is ever
bracketed; both fall through to the fallback, which returns `hourly[0].height`
unconditionally — the source's own comment says "Fallback to first or last
reading", and the spec says "fall back to the nearest endpoint value", but the
last reading is never used. -/

/-- C4 failing input: hourly series `[(t=0, h=1), (t=60, h=3)]`, queried at
`now = 120`, i.e. after the last sample.  The code returns the **first**
sample's height 1; the claim requires the last sample's height 3. -/
theorem claim_C4_divergence :
    getCurrentTideHeight [⟨0, 1⟩, ⟨60, 3⟩] 120 = 1 ∧ (1 : ℚ) ≠ 3 := by
  constructor
  · decide
  · norm_num

/-- C5 failing input: hourly series `[(t=0, h=1), (t=60, h=3)]`, queried
exactly at the last sample's timestamp `now = 60`.  The code returns the
first sample's height 1, not that sample's height 3, so interpolation is not
the identity at the last sample point. -/
theorem claim_C5_divergence :
    getCurrentTideHeight [⟨0, 1⟩, ⟨60, 3⟩] 60 = 1 ∧ (1 : ℚ) ≠ 3 := by
  constructor
  · decide
  · norm_num

/-! ## Claim C1: the overall spot score -/

/-- C1: for every measurement, location profile and surfer preference,
`calculateSpotScore` returns exactly the spec's weighted-rounded-clamped score
(`specSpotScore`, with the wind score double-counted at weights 0.20 and 0.10)
and the spec's rating thresholds applied to that clamped score (`specRating`). -/
theorem claim_C1 (conditions : SurfConditions) (spot : SpotConfig) (prefs : SurferPrefs) :
    (calculateSpotScore conditions spot prefs).score = specSpotScore conditions spot prefs ∧
    (calculateSpotScore conditions spot prefs).rating =
      specRating (specSpotScore conditions spot prefs) := by
  have key : ∀ a b c d e : ℚ,
      jsRound (a * 0.3 + b * 0.2 + c * 0.2 + d * 0.15 + c * 0.1 + e * 0.05) =
      jsRound (0.30 * a + 0.20 * b + 0.20 * c + 0.15 * d + 0.10 * c + 0.05 * e) := by
    intro a b c d e
    congr 1
    ring
  simp only [calculateSpotScore, specSpotScore, specRating, key]
  exact ⟨trivial, trivial⟩

/-! ## Claim C9: the historical percentile -/

/-- C9: for every interpretation of `Math.tanh`, every input score and every
month, `getHistoricalPercentile` equals the spec formula
`round(50 * (1 + tanh(0.8 * z)))` clamped to `[1, 99]` with
`z = (score - monthAvg) / 15` and `monthAvg` the month's entry of
`HISTORICAL_AVERAGES`; in particular the result is an integer between 1 and
99 inclusive. -/
theorem claim_C9 (th : ℚ → ℚ) (score : ℚ) (month : Fin 12) :
    getHistoricalPercentile th score month =
      specHistoricalPercentile th score (HISTORICAL_AVERAGES month).avgScore ∧
    ∃ k : ℤ, getHistoricalPercentile th score month = (k : ℚ) ∧ 1 ≤ k ∧ k ≤ 99 := by
  constructor
  · unfold getHistoricalPercentile specHistoricalPercentile
    have harg : (score - (HISTORICAL_AVERAGES month).avgScore) / 15 * 0.8 =
        0.8 * ((score - (HISTORICAL_AVERAGES month).avgScore) / 15) := by ring
    simp only [harg]
  · refine ⟨max 1 (min 99
      ⌊50 * (1 + th ((score - (HISTORICAL_AVERAGES month).avgScore) / 15 * 0.8)) + 1/2⌋),
      ?_, le_max_left _ _, max_le (by norm_num) (min_le_left _ _)⟩
    unfold getHistoricalPercentile jsRound
    push_cast
    rfl

/-! ## Dawn patrol characterization lemmas -/

theorem dawnPatrolDrive_tooEarly {st : SunTimes} {m now : ℤ}
    (h : now < st.firstLight - m - 40) :
    dawnPatrolDrive st m now = ⟨DPStatus.tooEarly, some (st.firstLight - m - 10)⟩ := by
  simp only [dawnPatrolDrive, calculateLeaveBy]
  rw [if_pos (by omega)]

theorem dawnPatrolDrive_leaveNow {st : SunTimes} {m now : ℤ}
    (h1 : st.firstLight - m - 40 ≤ now) (h2 : now < st.firstLight - m - 10) :
    dawnPatrolDrive st m now = ⟨DPStatus.leaveNow, some (st.firstLight - m - 10)⟩ := by
  simp only [dawnPatrolDrive, calculateLeaveBy]
  rw [if_neg (by omega), if_pos (by omega)]

theorem dawnPatrolDrive_onTheWay {st : SunTimes} {m now : ℤ}
    (h1 : st.firstLight - m - 10 ≤ now) (h2 : now < st.firstLight) :
    dawnPatrolDrive st m now = ⟨DPStatus.onTheWay, some (st.firstLight - m - 10)⟩ := by
  simp only [dawnPatrolDrive, calculateLeaveBy]
  rw [if_neg (by omega), if_neg (by omega), if_pos (by omega)]

theorem dawnPatrolDrive_surfing {st : SunTimes} {m now : ℤ} (hm : 0 ≤ m)
    (h1 : st.firstLight ≤ now) (h2 : now < st.sunset) :
    dawnPatrolDrive st m now = ⟨DPStatus.surfing, none⟩ := by
  simp only [dawnPatrolDrive, calculateLeaveBy]
  rw [if_neg (by omega), if_neg (by omega), if_neg (by omega), if_pos (by omega)]

theorem dawnPatrolDrive_missed {st : SunTimes} {m now : ℤ} (hm : 0 ≤ m)
    (h1 : st.firstLight ≤ now) (h2 : st.sunset ≤ now) :
    dawnPatrolDrive st m now = ⟨DPStatus.missed, none⟩ := by
  simp only [dawnPatrolDrive, calculateLeaveBy]
  rw [if_neg (by omega), if_neg (by omega), if_neg (by omega), if_neg (by omega)]

theorem getDawnPatrolStatus_some_pos {st : SunTimes} {m now : ℤ} (hm : m ≠ 0) :
    getDawnPatrolStatus st (some m) now = dawnPatrolDrive st m now := by
  simp only [getDawnPatrolStatus]
  rw [if_neg hm]

theorem dawnPatrolNoDrive_status (st : SunTimes) (now : ℤ) :
    (dawnPatrolNoDrive st now).status = DPStatus.tooEarly ∨
    (dawnPatrolNoDrive st now).status = DPStatus.surfing := by
  unfold dawnPatrolNoDrive
  split_ifs <;> simp

theorem dawnPatrolNoDrive_leaveBy (st : SunTimes) (now : ℤ) :
    (dawnPatrolNoDrive st now).leaveBy = none := by
  unfold dawnPatrolNoDrive
  split_ifs <;> rfl

/-! ## Claim C7: the `missed` status -/

/-- C7, counterexample: with no drive-time estimate, at `now = 1100`, at or
after sunset (1080), the status is `surfing`, not `missed` — the claim's
"for every optional drive-time estimate" universal fails. -/
theorem claim_C7_counterexample :
    (1080 : ℤ) ≤ 1100 ∧
    (getDawnPatrolStatus ⟨420, 1080, 360, 1140⟩ none 1100).status = DPStatus.surfing ∧
    (getDawnPatrolStatus ⟨420, 1080, 360, 1140⟩ none 1100).status ≠ DPStatus.missed := by
  refine ⟨by norm_num, ?_, ?_⟩ <;> decide

/-- C7 (amended): when a **positive** drive-time estimate is supplied and the
current time has reached the arrival point (= first light), the status is
`missed` exactly when `now` is at or after sunset and `surfing` exactly when
`now` is strictly before sunset; without a drive-time estimate the `missed`
status is never produced (after sunset the no-drive path still says
`surfing`). -/
theorem claim_C7_amended (st : SunTimes) (m now : ℤ) (hm : 0 < m)
    (hnow : st.firstLight ≤ now) :
    ((getDawnPatrolStatus st (some m) now).status = DPStatus.missed ↔ st.sunset ≤ now) ∧
    ((getDawnPatrolStatus st (some m) now).status = DPStatus.surfing ↔ now < st.sunset) ∧
    (∀ (st2 : SunTimes) (now2 : ℤ),
      (getDawnPatrolStatus st2 none now2).status ≠ DPStatus.missed) := by
  rw [getDawnPatrolStatus_some_pos (by omega)]
  refine ⟨?_, ?_, ?_⟩
  · rcases lt_or_le now st.sunset with h | h
    · rw [dawnPatrolDrive_surfing (by omega) hnow h]
      simp
      omega
    · rw [dawnPatrolDrive_missed (by omega) hnow h]
      simp [h]
  · rcases lt_or_le now st.sunset with h | h
    · rw [dawnPatrolDrive_surfing (by omega) hnow h]
      simp [h]
    · rw [dawnPatrolDrive_missed (by omega) hnow h]
      simp
      omega
  · intro st2 now2
    rcases dawnPatrolNoDrive_status st2 now2 with h | h <;>
      simp only [getDawnPatrolStatus] <;> rw [h] <;> decide

/-- Witness for C7 (amended): sunTimes (sunrise 420, sunset 1080, first light
360), drive 20 minutes, `now = 1100` (past sunset). -/
theorem claim_C7_amended_witness :
    ((getDawnPatrolStatus ⟨420, 1080, 360, 1140⟩ (some 20) 1100).status = DPStatus.missed ↔
      (1080 : ℤ) ≤ 1100) :=
  (claim_C7_amended ⟨420, 1080, 360, 1140⟩ 20 1100 (by norm_num) (by norm_num)).1

/-! ## Claim C10: truthiness of the drive-time argument -/

/-- C10: a drive-time estimate of exactly 0 is treated identically to no
estimate (the source tests truthiness): with `driveMinutes = 0` only
`too-early` and `surfing` are reachable and no `leaveBy` is ever attached,
whereas every positive `driveMinutes` makes all five statuses reachable (for
sun times with first light before sunset) and attaches `leaveBy` in the three
pre-arrival states. -/
theorem claim_C10 (st : SunTimes) (now m : ℤ) (hm : 0 < m)
    (hfs : st.firstLight < st.sunset) :
    getDawnPatrolStatus st (some 0) now = getDawnPatrolStatus st none now ∧
    ((getDawnPatrolStatus st (some 0) now).status = DPStatus.tooEarly ∨
      (getDawnPatrolStatus st (some 0) now).status = DPStatus.surfing) ∧
    (getDawnPatrolStatus st (some 0) now).leaveBy = none ∧
    getDawnPatrolStatus st (some m) (st.firstLight - m - 41) =
      ⟨DPStatus.tooEarly, some (st.firstLight - m - 10)⟩ ∧
    getDawnPatrolStatus st (some m) (st.firstLight - m - 11) =
      ⟨DPStatus.leaveNow, some (st.firstLight - m - 10)⟩ ∧
    getDawnPatrolStatus st (some m) (st.firstLight - m - 10) =
      ⟨DPStatus.onTheWay, some (st.firstLight - m - 10)⟩ ∧
    getDawnPatrolStatus st (some m) st.firstLight = ⟨DPStatus.surfing, none⟩ ∧
    getDawnPatrolStatus st (some m) (max st.firstLight st.sunset) =
      ⟨DPStatus.missed, none⟩ := by
  have hm' : m ≠ 0 := by omega
  refine ⟨rfl, ?_, ?_, ?_, ?_, ?_, ?_, ?_⟩
  · exact dawnPatrolNoDrive_status st now
  · exact dawnPatrolNoDrive_leaveBy st now
  · rw [getDawnPatrolStatus_some_pos hm', dawnPatrolDrive_tooEarly (by omega)]
  · rw [getDawnPatrolStatus_some_pos hm',
      dawnPatrolDrive_leaveNow (by omega) (by omega)]
  · rw [getDawnPatrolStatus_some_pos hm',
      dawnPatrolDrive_onTheWay (by omega) (by omega)]
  · rw [getDawnPatrolStatus_some_pos hm',
      dawnPatrolDrive_surfing (by omega) (by omega) (by omega)]
  · rw [getDawnPatrolStatus_some_pos hm',
      dawnPatrolDrive_missed (by omega) (le_max_left _ _) (le_max_right _ _)]

/-! ## `scoreWind` lemmas -/

theorem windSpeedScore_mono {s1 s2 : ℚ} (h : s1 ≤ s2) :
    windSpeedScore s2 ≤ windSpeedScore s1 := by
  unfold windSpeedScore
  split_ifs <;> linarith

theorem windSpeedScore_ge (s : ℚ) : 5 ≤ windSpeedScore s := by
  unfold windSpeedScore
  split_ifs <;> norm_num

theorem windSpeedScore_le_85 {s : ℚ} (h : ¬ s < 5) : windSpeedScore s ≤ 85 := by
  unfold windSpeedScore
  rw [if_neg h]
  split_ifs <;> norm_num

theorem wdm_ge (d : ℚ) : 0.4 ≤ windDirectionMultiplier d := by
  unfold windDirectionMultiplier
  split_ifs <;> norm_num

theorem wdm_le_one (d : ℚ) : windDirectionMultiplier d ≤ 1 := by
  unfold windDirectionMultiplier
  split_ifs <;> norm_num

theorem wdm_eq_one {d : ℚ} (h : d ≤ 45) : windDirectionMultiplier d = 1 := if_pos h

theorem wdm_le_of_not {d : ℚ} (h : ¬ d ≤ 45) : windDirectionMultiplier d ≤ 0.85 := by
  unfold windDirectionMultiplier
  rw [if_neg h]
  split_ifs <;> norm_num

/-- Rounding the speed score itself is the identity (it is one of six integer
bucket values). -/
theorem jsRound_windSpeedScore (s : ℚ) : jsRound (windSpeedScore s) = windSpeedScore s := by
  unfold windSpeedScore
  split_ifs <;> norm_num [jsRound]

/-- `scoreWind` is monotone non-increasing in the speed argument for any fixed
direction and offshore bearing. -/
theorem scoreWind_mono_speed {s1 s2 : ℚ} (dir off : ℚ) (h : s1 ≤ s2) :
    scoreWind s2 dir off ≤ scoreWind s1 dir off := by
  have hm0 : 0.4 ≤ windDirectionMultiplier |normalizeAngle (dir - off)| := wdm_ge _
  have hm1 : windDirectionMultiplier |normalizeAngle (dir - off)| ≤ 1 := wdm_le_one _
  by_cases h1 : s1 < 5
  · by_cases h2 : s2 < 5
    · have e1 : windSpeedScore s1 = 100 := by unfold windSpeedScore; rw [if_pos h1]
      have e2 : windSpeedScore s2 = 100 := by unfold windSpeedScore; rw [if_pos h2]
      simp only [scoreWind, if_pos h1, if_pos h2, e1, e2, le_refl]
    · simp only [scoreWind, if_pos h1, if_neg h2]
      have hws2 : windSpeedScore s2 ≤ 85 := windSpeedScore_le_85 h2
      have hws0 : (5:ℚ) ≤ windSpeedScore s2 := windSpeedScore_ge s2
      have hL : jsRound (windSpeedScore s2 *
          windDirectionMultiplier |normalizeAngle (dir - off)|) ≤ ((85:ℤ):ℚ) := by
        apply jsRound_le_of_le
        push_cast
        nlinarith
      have hR : ((90:ℤ):ℚ) ≤ jsRound (windSpeedScore s1 *
          (max 0.9 (windDirectionMultiplier |normalizeAngle (dir - off)|))) := by
        apply le_jsRound_of_le
        have hmax : (0.9:ℚ) ≤ max 0.9 (windDirectionMultiplier |normalizeAngle (dir - off)|) :=
          le_max_left _ _
        have hws1 : windSpeedScore s1 = 100 := by unfold windSpeedScore; rw [if_pos h1]
        rw [hws1]
        push_cast
        nlinarith
      push_cast at hL hR
      linarith
  · have h2 : ¬ s2 < 5 := fun hc => h1 (lt_of_le_of_lt h hc)
    simp only [scoreWind, if_neg h1, if_neg h2]
    exact jsRound_mono (mul_le_mul_of_nonneg_right (windSpeedScore_mono h) (by linarith))

/-- For speeds of at least 5 mph, the wind score is maximised over directions
exactly on the whole `≤ 45°` offshore band (not only at circular distance 0). -/
theorem scoreWind_offshore_max (s dir off : ℚ) (hs : 5 ≤ s) :
    scoreWind s dir off ≤ scoreWind s off off ∧
    (scoreWind s dir off = scoreWind s off off ↔ |normalizeAngle (dir - off)| ≤ 45) := by
  have h5 : ¬ s < 5 := not_lt.mpr hs
  have hz : |normalizeAngle (off - off)| = 0 := by
    rw [sub_self, normalizeAngle_of_mem (by norm_num) (by norm_num), abs_zero]
  have hRHS : scoreWind s off off = windSpeedScore s := by
    simp only [scoreWind, if_neg h5, hz]
    rw [wdm_eq_one (by norm_num), mul_one, jsRound_windSpeedScore]
  have hLHS : scoreWind s dir off =
      jsRound (windSpeedScore s * windDirectionMultiplier |normalizeAngle (dir - off)|) := by
    simp only [scoreWind, if_neg h5]
  by_cases hdi : |normalizeAngle (dir - off)| ≤ 45
  · rw [hLHS, hRHS, wdm_eq_one hdi, mul_one, jsRound_windSpeedScore]
    exact ⟨le_refl _, by simp [hdi]⟩
  · have hm1 : windDirectionMultiplier |normalizeAngle (dir - off)| ≤ 0.85 := wdm_le_of_not hdi
    have hm0 : 0.4 ≤ windDirectionMultiplier |normalizeAngle (dir - off)| := wdm_ge _
    have hws : (5:ℚ) ≤ windSpeedScore s := windSpeedScore_ge s
    have hstrict : jsRound (windSpeedScore s *
        windDirectionMultiplier |normalizeAngle (dir - off)|) < windSpeedScore s := by
      have hb : windSpeedScore s * windDirectionMultiplier |normalizeAngle (dir - off)| ≤
          windSpeedScore s * 0.85 := mul_le_mul_of_nonneg_left hm1 (by linarith)
      calc jsRound (windSpeedScore s * windDirectionMultiplier |normalizeAngle (dir - off)|)
          ≤ jsRound (windSpeedScore s * 0.85) := jsRound_mono hb
        _ ≤ windSpeedScore s - 1 := ?_
        _ < windSpeedScore s := by linarith
      unfold windSpeedScore
      rw [if_neg h5]
      split_ifs <;> norm_num [jsRound, Int.floor_eq_iff]
    rw [hLHS, hRHS]
    exact ⟨le_of_lt hstrict, ⟨fun he => absurd he (ne_of_lt hstrict), fun hc => absurd hc hdi⟩⟩

/-! ## `scoreWaveHeight` region lemmas

Throughout, a configuration is *valid* when
`0 < minSurfable < minIdeal ≤ maxIdeal < maxSurfable`, which holds for every
cell of `SKILL_CONFIGS`. -/

theorem swhCfg_ideal {c : SkillConfig} {q : ℚ} (hq1 : c.minIdeal ≤ q)
    (hq2 : q ≤ c.maxIdeal) : scoreWaveHeightCfg c q = 100 := by
  unfold scoreWaveHeightCfg
  rw [if_pos ⟨hq1, hq2⟩]

theorem swhCfg_below {c : SkillConfig} {q : ℚ} (hq1 : c.minSurfable ≤ q)
    (hq2 : q < c.minIdeal) :
    scoreWaveHeightCfg c q =
      jsRound (100 - (c.minIdeal - q) / (c.minIdeal - c.minSurfable) * 40) := by
  unfold scoreWaveHeightCfg
  rw [if_neg (by rintro ⟨a, b⟩; linarith), if_pos ⟨hq1, hq2⟩]

theorem swhCfg_small {c : SkillConfig} {q : ℚ} (h1 : c.minSurfable < c.minIdeal)
    (h2 : c.minIdeal ≤ c.maxIdeal) (hq : q < c.minSurfable) :
    scoreWaveHeightCfg c q = max 0 (jsRound (q / c.minSurfable * 30)) := by
  unfold scoreWaveHeightCfg
  rw [if_neg (by rintro ⟨a, b⟩; linarith), if_neg (by rintro ⟨a, b⟩; linarith),
    if_neg (by rintro ⟨a, b⟩; linarith), if_pos hq]

theorem swhCfg_above {c : SkillConfig} {q : ℚ} (h2 : c.minIdeal ≤ c.maxIdeal)
    (hq1 : c.maxIdeal < q) (hq2 : q ≤ c.maxSurfable) :
    scoreWaveHeightCfg c q =
      jsRound (100 - (q - c.maxIdeal) / (c.maxSurfable - c.maxIdeal) * 50) := by
  unfold scoreWaveHeightCfg
  rw [if_neg (by rintro ⟨a, b⟩; linarith), if_neg (by rintro ⟨a, b⟩; linarith),
    if_pos ⟨hq1, hq2⟩]

theorem swhCfg_big {c : SkillConfig} {q : ℚ} (h1 : c.minSurfable < c.minIdeal)
    (h2 : c.minIdeal ≤ c.maxIdeal) (h3 : c.maxIdeal < c.maxSurfable)
    (hq : c.maxSurfable < q) :
    scoreWaveHeightCfg c q = max 0 (jsRound (30 - (q - c.maxSurfable) * 10)) := by
  unfold scoreWaveHeightCfg
  rw [if_neg (by rintro ⟨a, b⟩; linarith), if_neg (by rintro ⟨a, b⟩; linarith),
    if_neg (by rintro ⟨a, b⟩; linarith), if_neg (by linarith), if_pos hq]

theorem swhCfg_small_le {c : SkillConfig} {q : ℚ} (h0 : 0 < c.minSurfable)
    (h1 : c.minSurfable < c.minIdeal) (h2 : c.minIdeal ≤ c.maxIdeal)
    (hq : q < c.minSurfable) : scoreWaveHeightCfg c q ≤ 30 := by
  rw [swhCfg_small h1 h2 hq]
  have ht : q / c.minSurfable ≤ 1 := (div_le_one h0).mpr (le_of_lt hq)
  have hx : jsRound (q / c.minSurfable * 30) ≤ ((30:ℤ):ℚ) :=
    jsRound_le_of_le (by push_cast; linarith)
  push_cast at hx
  exact max_le (by norm_num) hx

theorem swhCfg_below_ge {c : SkillConfig} {q : ℚ} (h1 : c.minSurfable < c.minIdeal)
    (hq1 : c.minSurfable ≤ q) (hq2 : q < c.minIdeal) :
    60 ≤ scoreWaveHeightCfg c q := by
  rw [swhCfg_below hq1 hq2]
  have hr : (0:ℚ) < c.minIdeal - c.minSurfable := by linarith
  have ht : (c.minIdeal - q) / (c.minIdeal - c.minSurfable) ≤ 1 :=
    (div_le_one hr).mpr (by linarith)
  have hx : ((60:ℤ):ℚ) ≤ jsRound (100 - (c.minIdeal - q) / (c.minIdeal - c.minSurfable) * 40) :=
    le_jsRound_of_le (by push_cast; linarith)
  push_cast at hx
  exact hx

theorem swhCfg_below_le {c : SkillConfig} {q : ℚ} (h1 : c.minSurfable < c.minIdeal)
    (hq1 : c.minSurfable ≤ q) (hq2 : q < c.minIdeal) :
    scoreWaveHeightCfg c q ≤ 100 := by
  rw [swhCfg_below hq1 hq2]
  have hr : (0:ℚ) < c.minIdeal - c.minSurfable := by linarith
  have ht : 0 ≤ (c.minIdeal - q) / (c.minIdeal - c.minSurfable) :=
    div_nonneg (by linarith) (by linarith)
  have hx : jsRound (100 - (c.minIdeal - q) / (c.minIdeal - c.minSurfable) * 40) ≤
      ((100:ℤ):ℚ) := jsRound_le_of_le (by push_cast; linarith)
  push_cast at hx
  exact hx

theorem swhCfg_above_ge {c : SkillConfig} {q : ℚ} (h3 : c.maxIdeal < c.maxSurfable)
    (h2 : c.minIdeal ≤ c.maxIdeal) (hq1 : c.maxIdeal < q) (hq2 : q ≤ c.maxSurfable) :
    50 ≤ scoreWaveHeightCfg c q := by
  rw [swhCfg_above h2 hq1 hq2]
  have hr : (0:ℚ) < c.maxSurfable - c.maxIdeal := by linarith
  have ht : (q - c.maxIdeal) / (c.maxSurfable - c.maxIdeal) ≤ 1 :=
    (div_le_one hr).mpr (by linarith)
  have hx : ((50:ℤ):ℚ) ≤ jsRound (100 - (q - c.maxIdeal) / (c.maxSurfable - c.maxIdeal) * 50) :=
    le_jsRound_of_le (by push_cast; linarith)
  push_cast at hx
  exact hx

theorem swhCfg_above_le {c : SkillConfig} {q : ℚ} (h3 : c.maxIdeal < c.maxSurfable)
    (h2 : c.minIdeal ≤ c.maxIdeal) (hq1 : c.maxIdeal < q) (hq2 : q ≤ c.maxSurfable) :
    scoreWaveHeightCfg c q ≤ 100 := by
  rw [swhCfg_above h2 hq1 hq2]
  have hr : (0:ℚ) < c.maxSurfable - c.maxIdeal := by linarith
  have ht : 0 ≤ (q - c.maxIdeal) / (c.maxSurfable - c.maxIdeal) :=
    div_nonneg (by linarith) (by linarith)
  have hx : jsRound (100 - (q - c.maxIdeal) / (c.maxSurfable - c.maxIdeal) * 50) ≤
      ((100:ℤ):ℚ) := jsRound_le_of_le (by push_cast; linarith)
  push_cast at hx
  exact hx

theorem swhCfg_big_le {c : SkillConfig} {q : ℚ} (h1 : c.minSurfable < c.minIdeal)
    (h2 : c.minIdeal ≤ c.maxIdeal) (h3 : c.maxIdeal < c.maxSurfable)
    (hq : c.maxSurfable < q) : scoreWaveHeightCfg c q ≤ 30 := by
  rw [swhCfg_big h1 h2 h3 hq]
  have hx : jsRound (30 - (q - c.maxSurfable) * 10) ≤ ((30:ℤ):ℚ) :=
    jsRound_le_of_le (by push_cast; nlinarith)
  push_cast at hx
  exact max_le (by norm_num) hx

theorem swhCfg_mono_small {c : SkillConfig} {q1 q2 : ℚ} (h0 : 0 < c.minSurfable)
    (h1 : c.minSurfable < c.minIdeal) (h2 : c.minIdeal ≤ c.maxIdeal)
    (hq : q1 ≤ q2) (hq2 : q2 < c.minSurfable) :
    scoreWaveHeightCfg c q1 ≤ scoreWaveHeightCfg c q2 := by
  rw [swhCfg_small h1 h2 (lt_of_le_of_lt hq hq2), swhCfg_small h1 h2 hq2]
  refine max_le_max (le_refl 0) (jsRound_mono ?_)
  have ht : q1 / c.minSurfable ≤ q2 / c.minSurfable := (div_le_div_iff_of_pos_right h0).mpr hq
  linarith

theorem swhCfg_mono_below {c : SkillConfig} {q1 q2 : ℚ} (h1 : c.minSurfable < c.minIdeal)
    (hq0 : c.minSurfable ≤ q1) (hq : q1 ≤ q2) (hq2 : q2 < c.minIdeal) :
    scoreWaveHeightCfg c q1 ≤ scoreWaveHeightCfg c q2 := by
  rw [swhCfg_below hq0 (lt_of_le_of_lt hq hq2), swhCfg_below (le_trans hq0 hq) hq2]
  apply jsRound_mono
  have hr : (0:ℚ) < c.minIdeal - c.minSurfable := by linarith
  have ht : (c.minIdeal - q2) / (c.minIdeal - c.minSurfable) ≤
      (c.minIdeal - q1) / (c.minIdeal - c.minSurfable) :=
    (div_le_div_iff_of_pos_right hr).mpr (by linarith)
  linarith

theorem swhCfg_mono_above {c : SkillConfig} {q1 q2 : ℚ} (h2 : c.minIdeal ≤ c.maxIdeal)
    (h3 : c.maxIdeal < c.maxSurfable) (hq1 : c.maxIdeal < q1) (hq : q1 ≤ q2)
    (hq2 : q2 ≤ c.maxSurfable) :
    scoreWaveHeightCfg c q2 ≤ scoreWaveHeightCfg c q1 := by
  rw [swhCfg_above h2 hq1 (le_trans hq hq2), swhCfg_above h2 (lt_of_lt_of_le hq1 hq) hq2]
  apply jsRound_mono
  have hr : (0:ℚ) < c.maxSurfable - c.maxIdeal := by linarith
  have ht : (q1 - c.maxIdeal) / (c.maxSurfable - c.maxIdeal) ≤
      (q2 - c.maxIdeal) / (c.maxSurfable - c.maxIdeal) :=
    (div_le_div_iff_of_pos_right hr).mpr (by linarith)
  linarith

theorem swhCfg_mono_big {c : SkillConfig} {q1 q2 : ℚ} (h1 : c.minSurfable < c.minIdeal)
    (h2 : c.minIdeal ≤ c.maxIdeal) (h3 : c.maxIdeal < c.maxSurfable)
    (hq1 : c.maxSurfable < q1) (hq : q1 ≤ q2) :
    scoreWaveHeightCfg c q2 ≤ scoreWaveHeightCfg c q1 := by
  rw [swhCfg_big h1 h2 h3 hq1, swhCfg_big h1 h2 h3 (lt_of_lt_of_le hq1 hq)]
  exact max_le_max (le_refl 0) (jsRound_mono (by linarith))

/-- Lower-side monotonicity: below `minIdeal` the score is non-decreasing in
height, for any valid configuration. -/
theorem swhCfg_mono_lower {c : SkillConfig} (h0 : 0 < c.minSurfable)
    (h1 : c.minSurfable < c.minIdeal) (h2 : c.minIdeal ≤ c.maxIdeal)
    {q1 q2 : ℚ} (hq : q1 ≤ q2) (hmi : q2 ≤ c.minIdeal) :
    scoreWaveHeightCfg c q1 ≤ scoreWaveHeightCfg c q2 := by
  rcases eq_or_lt_of_le hmi with he | hlt
  · rw [he, swhCfg_ideal (le_refl _) h2]
    rcases eq_or_lt_of_le (he ▸ hq) with he1 | hlt1
    · rw [he1, swhCfg_ideal (le_refl _) h2]
    · rcases lt_or_le q1 c.minSurfable with hs | hs
      · calc scoreWaveHeightCfg c q1 ≤ 30 := swhCfg_small_le h0 h1 h2 hs
          _ ≤ 100 := by norm_num
      · exact swhCfg_below_le h1 hs hlt1
  · rcases lt_or_le q2 c.minSurfable with hs2 | hs2
    · exact swhCfg_mono_small h0 h1 h2 hq hs2
    · rcases lt_or_le q1 c.minSurfable with hs1 | hs1
      · calc scoreWaveHeightCfg c q1 ≤ 30 := swhCfg_small_le h0 h1 h2 hs1
          _ ≤ 60 := by norm_num
          _ ≤ scoreWaveHeightCfg c q2 := swhCfg_below_ge h1 hs2 hlt
      · exact swhCfg_mono_below h1 hs1 hq hlt

/-- Upper-side monotonicity: above `maxIdeal` the score is non-increasing in
height, for any valid configuration. -/
theorem swhCfg_mono_upper {c : SkillConfig} (h1 : c.minSurfable < c.minIdeal)
    (h2 : c.minIdeal ≤ c.maxIdeal) (h3 : c.maxIdeal < c.maxSurfable)
    {q1 q2 : ℚ} (hMi : c.maxIdeal ≤ q1) (hq : q1 ≤ q2) :
    scoreWaveHeightCfg c q2 ≤ scoreWaveHeightCfg c q1 := by
  rcases eq_or_lt_of_le hMi with he | hlt
  · rw [← he, swhCfg_ideal h2 (le_refl _)]
    rcases eq_or_lt_of_le (he ▸ hq) with he1 | hlt1
    · rw [← he1, swhCfg_ideal h2 (le_refl _)]
    · rcases le_or_lt q2 c.maxSurfable with hs | hs
      · exact swhCfg_above_le h3 h2 hlt1 hs
      · calc scoreWaveHeightCfg c q2 ≤ 30 := swhCfg_big_le h1 h2 h3 hs
          _ ≤ 100 := by norm_num
  · rcases lt_or_le c.maxSurfable q1 with hs1 | hs1
    · exact swhCfg_mono_big h1 h2 h3 hs1 hq
    · rcases le_or_lt q2 c.maxSurfable with hs2 | hs2
      · exact swhCfg_mono_above h2 h3 hlt hq hs2
      · calc scoreWaveHeightCfg c q2 ≤ 30 := swhCfg_big_le h1 h2 h3 hs2
          _ ≤ 50 := by norm_num
          _ ≤ scoreWaveHeightCfg c q1 := swhCfg_above_ge h3 h2 hlt hs1

/-- Every cell of the `SKILL_CONFIGS` table is a valid configuration:
`0 < minSurfable < minIdeal ≤ maxIdeal < maxSurfable`. -/
theorem SKILL_CONFIGS_valid {st sl : String} {cfg : SkillConfig}
    (h : SKILL_CONFIGS st sl = some cfg) :
    0 < cfg.minSurfable ∧ cfg.minSurfable < cfg.minIdeal ∧
      cfg.minIdeal ≤ cfg.maxIdeal ∧ cfg.maxIdeal < cfg.maxSurfable := by
  unfold SKILL_CONFIGS at h
  split_ifs at h <;>
    (injection h with h2; subst h2;
      exact ⟨by norm_num, by norm_num, by norm_num, by norm_num⟩)

/-! ## Claim C2 -/

/-- C2: for every board-type/skill-level pair present in `SKILL_CONFIGS`,
`scoreWaveHeight` returns exactly 100 on the ideal band
`[minIdeal, maxIdeal]`, is monotone non-decreasing below `minIdeal`, and is
monotone non-increasing above `maxIdeal`. -/
theorem claim_C2 (st sl : String) (cfg : SkillConfig)
    (h : SKILL_CONFIGS st sl = some cfg) :
    (∀ q : ℚ, cfg.minIdeal ≤ q → q ≤ cfg.maxIdeal → scoreWaveHeight q st sl = 100) ∧
    (∀ q1 q2 : ℚ, q1 ≤ q2 → q2 ≤ cfg.minIdeal →
      scoreWaveHeight q1 st sl ≤ scoreWaveHeight q2 st sl) ∧
    (∀ q1 q2 : ℚ, cfg.maxIdeal ≤ q1 → q1 ≤ q2 →
      scoreWaveHeight q2 st sl ≤ scoreWaveHeight q1 st sl) := by
  obtain ⟨h0, h1, h2, h3⟩ := SKILL_CONFIGS_valid h
  have hrw : ∀ q : ℚ, scoreWaveHeight q st sl = scoreWaveHeightCfg cfg q := by
    intro q
    unfold scoreWaveHeight
    rw [h]
  refine ⟨?_, ?_, ?_⟩
  · intro q hq1 hq2
    rw [hrw]
    exact swhCfg_ideal hq1 hq2
  · intro q1 q2 hq hq2
    rw [hrw, hrw]
    exact swhCfg_mono_lower h0 h1 h2 hq hq2
  · intro q1 q2 hq1 hq
    rw [hrw, hrw]
    exact swhCfg_mono_upper h1 h2 h3 hq1 hq

/-- Witness for C2 at the longboard/beginner cell (ideal range `[1.5, 3]`). -/
theorem claim_C2_witness :
    scoreWaveHeight 2 "longboard" "beginner" = 100 ∧
    scoreWaveHeight 1.2 "longboard" "beginner" ≤ scoreWaveHeight 1.4 "longboard" "beginner" ∧
    scoreWaveHeight 4.5 "longboard" "beginner" ≤ scoreWaveHeight 3.5 "longboard" "beginner" :=
  ⟨(claim_C2 "longboard" "beginner" ⟨1.5, 3, 1, 5⟩ rfl).1 2 (by norm_num) (by norm_num),
    (claim_C2 "longboard" "beginner" ⟨1.5, 3, 1, 5⟩ rfl).2.1 1.2 1.4
      (by norm_num) (by norm_num),
    (claim_C2 "longboard" "beginner" ⟨1.5, 3, 1, 5⟩ rfl).2.2 3.5 4.5
      (by norm_num) (by norm_num)⟩

/-! ## `calculateBestTimeWindow` lemmas -/

/-- Every entry of the filtered `hourlyScores` list has its hour in `[5, 20]`. -/
theorem hourlyScoresOf_mem_hour {preds : List TidePred} {bt : BestTide} {x : HourScore}
    (hx : x ∈ hourlyScoresOf preds bt) : 5 ≤ x.hour ∧ x.hour ≤ 20 := by
  unfold hourlyScoresOf at hx
  rw [List.mem_filterMap] at hx
  obtain ⟨p, _, he⟩ := hx
  split_ifs at he with hd hh
  · have hxh : x.hour = p.hour := by
      injection he with he
      rw [← he]
    omega

/-- Every window produced by `slidingWindows` is non-empty and drawn from the
underlying list. -/
theorem slidingWindows_mem {l : List HourScore} {size : ℕ} (hs : 1 ≤ size)
    {w : List HourScore} (hw : w ∈ slidingWindows l size) :
    w ≠ [] ∧ ∀ x ∈ w, x ∈ l := by
  unfold slidingWindows at hw
  split_ifs at hw with hsz
  · rw [List.mem_map] at hw
    obtain ⟨i, hi, rfl⟩ := hw
    rw [List.mem_range] at hi
    constructor
    · have hlen : ((l.drop i).take size).length = size := by
        rw [List.length_take, List.length_drop]
        omega
      intro hnil
      rw [hnil] at hlen
      simp at hlen
      omega
    · intro x hx
      exact List.drop_subset i l (List.take_subset size (l.drop i) hx)
  · exact absurd hw (by simp)

theorem head_getD_mem {w : List HourScore} (h : w ≠ []) (d : HourScore) :
    w.head?.getD d ∈ w := by
  cases w with
  | nil => exact absurd rfl h
  | cons a t => simp [List.head?]

theorem getLast_getD_mem {w : List HourScore} (h : w ≠ []) (d : HourScore) :
    w.getLast?.getD d ∈ w := by
  induction w with
  | nil => exact absurd rfl h
  | cons a t ih =>
    cases t with
    | nil => simp [List.getLast?]
    | cons b t2 =>
      rw [List.getLast?_cons_cons]
      exact List.mem_cons_of_mem a (ih (List.cons_ne_nil b t2))

/-- The fold of `windowStep` preserves the hour bounds: start hour in
`[5, 20]`, end hour in `[5, 21]`, provided every candidate window is a
non-empty selection of scored hours in `[5, 20]`. -/
theorem foldl_windowStep_bounds (hs : List HourScore)
    (hl : ∀ x ∈ hs, 5 ≤ x.hour ∧ x.hour ≤ 20) :
    ∀ (ws : List (List HourScore)) (bw : BestWindow),
      (∀ w ∈ ws, w ≠ [] ∧ ∀ x ∈ w, x ∈ hs) →
      (5 ≤ bw.startHour ∧ bw.startHour ≤ 20 ∧ 5 ≤ bw.endHour ∧ bw.endHour ≤ 21) →
      5 ≤ (ws.foldl windowStep bw).startHour ∧
        (ws.foldl windowStep bw).startHour ≤ 20 ∧
        5 ≤ (ws.foldl windowStep bw).endHour ∧
        (ws.foldl windowStep bw).endHour ≤ 21 := by
  intro ws
  induction ws with
  | nil => intro bw _ hbw; simpa using hbw
  | cons w ws ih =>
    intro bw hws hbw
    simp only [List.foldl_cons]
    apply ih
    · intro w2 hw2
      exact hws w2 (List.mem_cons_of_mem _ hw2)
    · obtain ⟨hne, hsub⟩ := hws w (List.mem_cons_self _ _)
      simp only [windowStep]
      split_ifs with hcond
      · have hhead := hl _ (hsub _ (head_getD_mem hne ⟨0, 0, 0⟩))
        have hlast := hl _ (hsub _ (getLast_getD_mem hne ⟨0, 0, 0⟩))
        refine ⟨hhead.1, hhead.2, ?_, ?_⟩
        · show 5 ≤ (w.getLast?.getD ⟨0, 0, 0⟩).hour + 1
          omega
        · show (w.getLast?.getD ⟨0, 0, 0⟩).hour + 1 ≤ 21
          omega
      · exact hbw

/-- `bestWindowCore` returns `none` exactly when no hour of the series
qualifies (today plus hour in `[5, 20]`). -/
theorem bestWindowCore_none_iff (preds : List TidePred) (bt : BestTide) :
    bestWindowCore preds bt = none ↔ hourlyScoresOf preds bt = [] := by
  by_cases h1 : preds.isEmpty
  · have hp : preds = [] := List.isEmpty_iff.mp h1
    subst hp
    simp [bestWindowCore, hourlyScoresOf]
  · by_cases h2 : (hourlyScoresOf preds bt).isEmpty
    · simp only [bestWindowCore]
      rw [if_neg h1, if_pos h2]
      simp [List.isEmpty_iff.mp h2]
    · simp only [bestWindowCore]
      rw [if_neg h1, if_neg h2]
      constructor
      · intro hc
        exact absurd hc (by simp)
      · intro hc
        exact absurd (show (hourlyScoresOf preds bt).isEmpty = true by rw [hc]; rfl) h2

theorem calculateBestTimeWindow_none_iff (td : TideData) (bt : BestTide) :
    calculateBestTimeWindow td bt = none ↔ bestWindowCore td.hourly bt = none := by
  unfold calculateBestTimeWindow
  cases bestWindowCore td.hourly bt <;> simp

/-! ## Claim C6 -/

/-- C6, counterexample: the series with qualifying hours 19 and 20 only (tide
height 0, preferred tide `any`) produces the window with start hour 19 and
**end hour 21** — outside `[5, 20]` — because the end hour is the last
window hour plus one. -/
theorem claim_C6_counterexample :
    bestWindowCore [⟨0, 19, 0⟩, ⟨0, 20, 0⟩] BestTide.any = some ⟨19, 21, 60, 0⟩ ∧
    ¬ ((21 : ℕ) ≤ 20) := by
  constructor
  · have h1 : hourlyScoresOf [⟨0, 19, 0⟩, ⟨0, 20, 0⟩] BestTide.any =
        [⟨19, 60, 0⟩, ⟨20, 60, 0⟩] := by
      norm_num [hourlyScoresOf, List.filterMap, scoreTideForWindow, windowWindScore]
    simp only [bestWindowCore, h1]
    norm_num [slidingWindows, windowStep, List.range_succ]
  · decide

/-- C6 (amended): `calculateBestTimeWindow` returns null exactly when the
day's tide series contributes zero hours in the surfable range `[5, 20]` (in
particular for an empty series), and every non-null result is a window whose
start hour lies in `[5, 20]` and whose **end hour lies in `[5, 21]`** (the end
hour is exclusive: last window hour + 1, so it can be 21). -/
theorem claim_C6_amended (preds : List TidePred) (bt : BestTide) :
    (calculateBestTimeWindow ⟨preds⟩ bt = none ↔ hourlyScoresOf preds bt = []) ∧
    ∀ bw : BestWindow, bestWindowCore preds bt = some bw →
      5 ≤ bw.startHour ∧ bw.startHour ≤ 20 ∧ 5 ≤ bw.endHour ∧ bw.endHour ≤ 21 := by
  constructor
  · rw [calculateBestTimeWindow_none_iff]
    exact bestWindowCore_none_iff preds bt
  · intro bw hbw
    simp only [bestWindowCore] at hbw
    by_cases h1 : preds.isEmpty
    · rw [if_pos h1] at hbw
      exact absurd hbw (by simp)
    · rw [if_neg h1] at hbw
      by_cases h2 : (hourlyScoresOf preds bt).isEmpty
      · rw [if_pos h2] at hbw
        exact absurd hbw (by simp)
      · rw [if_neg h2] at hbw
        injection hbw with hbw
        subst hbw
        apply foldl_windowStep_bounds (hourlyScoresOf preds bt)
          (fun x hx => hourlyScoresOf_mem_hour hx)
        · intro w hw
          rw [List.mem_append] at hw
          rcases hw with hw | hw
          · exact slidingWindows_mem (by norm_num) hw
          · exact slidingWindows_mem (by norm_num) hw
        · exact ⟨by norm_num, by norm_num, by norm_num, by norm_num⟩

/-- Witness for C6 (amended) on the series with qualifying hours 6 and 7. -/
theorem claim_C6_amended_witness :
    (calculateBestTimeWindow ⟨[⟨0, 6, 0⟩, ⟨0, 7, 0⟩]⟩ BestTide.any = none ↔
      hourlyScoresOf [⟨0, 6, 0⟩, ⟨0, 7, 0⟩] BestTide.any = []) ∧
    (5 ≤ (⟨6, 8, 85, 0⟩ : BestWindow).startHour ∧
      (⟨6, 8, 85, 0⟩ : BestWindow).startHour ≤ 20 ∧
      5 ≤ (⟨6, 8, 85, 0⟩ : BestWindow).endHour ∧
      (⟨6, 8, 85, 0⟩ : BestWindow).endHour ≤ 21) :=
  ⟨(claim_C6_amended [⟨0, 6, 0⟩, ⟨0, 7, 0⟩] BestTide.any).1,
    (claim_C6_amended [⟨0, 6, 0⟩, ⟨0, 7, 0⟩] BestTide.any).2 ⟨6, 8, 85, 0⟩ (by
      have h1 : hourlyScoresOf [⟨0, 6, 0⟩, ⟨0, 7, 0⟩] BestTide.any =
          [⟨6, 85, 0⟩, ⟨7, 85, 0⟩] := by
        norm_num [hourlyScoresOf, List.filterMap, scoreTideForWindow, windowWindScore]
      simp only [bestWindowCore, h1]
      norm_num [slidingWindows, windowStep, List.range_succ])⟩

/-! ## Claim C8 -/

/-- C8, counterexample: at speed 5 (≥ 5 mph) and offshore bearing 0, the wind
direction 30 (circular distance 30, not 0) attains the same score as the
offshore direction itself, so the maximum is **not** attained exactly at
`dir == offshore`. -/
theorem claim_C8_counterexample :
    scoreWind 5 30 0 = scoreWind 5 0 0 ∧ (30 : ℚ) ≠ 0 ∧ (5 : ℚ) ≤ 5 := by
  refine ⟨?_, by norm_num, le_refl 5⟩
  have e1 : normalizeAngle ((30:ℚ) - 0) = 30 := by
    rw [show ((30:ℚ) - 0) = 30 by norm_num]
    exact normalizeAngle_of_mem (by norm_num) (by norm_num)
  have e2 : normalizeAngle ((0:ℚ) - 0) = 0 := by
    rw [show ((0:ℚ) - 0) = 0 by norm_num]
    exact normalizeAngle_of_mem (by norm_num) (by norm_num)
  simp only [scoreWind, e1, e2, abs_zero]
  rw [show |(30:ℚ)| = 30 from abs_of_nonneg (by norm_num)]
  norm_num [windSpeedScore, windDirectionMultiplier]

/-- C8 (amended): `scoreWind` is monotone non-increasing in speed for fixed
direction and offshore bearing, and for fixed speed ≥ 5 mph it attains its
maximum over directions exactly on the set of directions whose circular
distance from the offshore bearing is **at most 45°** (the whole offshore
bucket), not solely at circular distance 0. -/
theorem claim_C8_amended (s1 s2 s dir off : ℚ) (h12 : s1 ≤ s2) (hs : 5 ≤ s) :
    scoreWind s2 dir off ≤ scoreWind s1 dir off ∧
    scoreWind s dir off ≤ scoreWind s off off ∧
    (scoreWind s dir off = scoreWind s off off ↔ |normalizeAngle (dir - off)| ≤ 45) :=
  ⟨scoreWind_mono_speed dir off h12, (scoreWind_offshore_max s dir off hs).1,
    (scoreWind_offshore_max s dir off hs).2⟩

/-- Witness for C8 (amended) at speeds 7 ≤ 12, test speed 5, direction 100,
offshore bearing 0. -/
theorem claim_C8_amended_witness :
    scoreWind 12 100 0 ≤ scoreWind 7 100 0 ∧
    (scoreWind 5 100 0 = scoreWind 5 0 0 ↔ |normalizeAngle (100 - 0)| ≤ 45) :=
  ⟨(claim_C8_amended 7 12 5 100 0 (by norm_num) (by norm_num)).1,
    (claim_C8_amended 7 12 5 100 0 (by norm_num) (by norm_num)).2.2⟩

/-- Witness for C10: sunTimes (sunrise 420, sunset 1080, first light 360),
drive 20 minutes. -/
theorem claim_C10_witness :
    getDawnPatrolStatus ⟨420, 1080, 360, 1140⟩ (some 0) 500 =
      getDawnPatrolStatus ⟨420, 1080, 360, 1140⟩ none 500 ∧
    getDawnPatrolStatus ⟨420, 1080, 360, 1140⟩ (some 20) 360 =
      ⟨DPStatus.surfing, none⟩ :=
  ⟨(claim_C10 ⟨420, 1080, 360, 1140⟩ 500 20 (by norm_num) (by norm_num)).1,
    (claim_C10 ⟨420, 1080, 360, 1140⟩ 500 20 (by norm_num) (by norm_num)).2.2.2.2.2.2.1⟩
